import Mathlib

/-!
Shallow embedding of the GMPlayer window subsystem (src-tauri/src/window):
the preset catalog (config.rs), the window registry/manager (manager.rs),
the one-shot payload cache (payload.rs), the command layer (commands.rs,
desktop_lyrics/commands.rs) and the tray popup positioner (tray.rs).

The host windowing layer (tauri) is modelled as an explicit registry state:
an association list from label to a window record, plus the list of emitted
application events and the trace of host calls performed.  Host calls that
the source treats as infallible environment calls (show, hide, focus, ...)
always succeed in the model; the fallible steps of window construction are
driven by an explicit outcome oracle.  f64 quantities are modelled as Rat;
the registry model takes the host scale factor as 1 (the tray positioner
models the scale factor explicitly, as the source converts there).
-/

/-- Compilation target, for the `cfg(target_os = ...)` blocks in the source. -/
inductive Platform where
  | windows
  | macos
  | linux
deriving DecidableEq

/-- `config.rs`: `WindowConfig` — configuration for creating a window.
f64 fields become `Rat`. -/
structure WindowConfig where
  label : String
  title : String
  url : String
  width : Rat
  height : Rat
  min_width : Option Rat
  min_height : Option Rat
  max_width : Option Rat
  max_height : Option Rat
  resizable : Bool
  decorations : Bool
  transparent : Bool
  always_on_top : Bool
  skip_taskbar : Bool
  center : Bool
  visible : Bool
  single_instance : Bool
  closeable_to_tray : Bool
  use_overlay_titlebar : Bool
  traffic_lights_inset : Option (Rat × Rat)
  window_effect : Option String
  shadow : Bool
  additional_args : Option String
  /-- Modelled from the spec: `WindowConfig`'s "optional parent label".
  `manager.rs` reads `config.parent_label`, but the field declaration is
  absent from the `config.rs` struct in this snapshot; no preset sets it,
  so presets carry `none` (the serde default for an optional field). -/
  parent_label : Option String
deriving DecidableEq

/-- `config.rs`: `DEFAULT_ADDTIONAL_WINDOW_ARGS`. -/
def DEFAULT_ADDTIONAL_WINDOW_ARGS : String :=
  "--enable-gpu-rasterization --enable-zero-copy --ignore-gpu-blocklist --use-gl=angle --disable-features=VaapiVideoDecoder,UseChromeOSDirectVideoDecoder,msWebOOUI,msPdfOOUI --enable-threaded-compositing --num-raster-threads=4"

/-- `config.rs`: `WindowConfig::main()` — main window preset. -/
def WindowConfig.main : WindowConfig where
  label := "main"
  title := "GMPlayer"
  url := "/"
  width := 881
  height := 653
  min_width := some 680
  min_height := some 500
  max_width := none
  max_height := none
  resizable := true
  decorations := false
  transparent := false
  always_on_top := false
  skip_taskbar := false
  center := false
  visible := true
  single_instance := true
  closeable_to_tray := true
  use_overlay_titlebar := true
  traffic_lights_inset := some (12, 16)
  window_effect := none
  shadow := true
  additional_args := some DEFAULT_ADDTIONAL_WINDOW_ARGS
  parent_label := none

/-- `config.rs`: `WindowConfig::mini_player()` — compact always-on-top player. -/
def WindowConfig.mini_player : WindowConfig where
  label := "mini-player"
  title := "Mini Player"
  url := "/slave.html#/mini-player"
  width := 350
  height := 80
  min_width := none
  min_height := none
  max_width := none
  max_height := none
  resizable := false
  decorations := false
  transparent := true
  always_on_top := true
  skip_taskbar := true
  center := false
  visible := true
  single_instance := true
  closeable_to_tray := false
  use_overlay_titlebar := false
  traffic_lights_inset := none
  window_effect := some "acrylic"
  shadow := true
  additional_args := some DEFAULT_ADDTIONAL_WINDOW_ARGS
  parent_label := none

/-- `config.rs`: `WindowConfig::desktop_lyrics()` — floating lyrics overlay. -/
def WindowConfig.desktop_lyrics : WindowConfig where
  label := "desktop-lyrics"
  title := "Desktop Lyrics"
  url := "/slave.html#/desktop-lyrics"
  width := 800
  height := 120
  min_width := some 400
  min_height := some 60
  max_width := none
  max_height := none
  resizable := true
  decorations := false
  transparent := true
  always_on_top := true
  skip_taskbar := true
  center := false
  visible := true
  single_instance := true
  closeable_to_tray := false
  use_overlay_titlebar := false
  traffic_lights_inset := none
  window_effect := none
  shadow := false
  additional_args := some DEFAULT_ADDTIONAL_WINDOW_ARGS
  parent_label := none

/-- `config.rs`: `WindowConfig::settings()` — settings window preset. -/
def WindowConfig.settings : WindowConfig where
  label := "settings"
  title := "Settings"
  url := "/setting"
  width := 700
  height := 500
  min_width := some 500
  min_height := some 400
  max_width := none
  max_height := none
  resizable := true
  decorations := false
  transparent := false
  always_on_top := false
  skip_taskbar := false
  center := true
  visible := true
  single_instance := true
  closeable_to_tray := false
  use_overlay_titlebar := true
  traffic_lights_inset := some (12, 16)
  window_effect := none
  shadow := true
  additional_args := none
  parent_label := none

/-- `config.rs`: `WindowConfig::about()` — about window preset. -/
def WindowConfig.about : WindowConfig where
  label := "about"
  title := "About"
  url := "/about"
  width := 400
  height := 350
  min_width := none
  min_height := none
  max_width := none
  max_height := none
  resizable := false
  decorations := false
  transparent := false
  always_on_top := true
  skip_taskbar := false
  center := true
  visible := true
  single_instance := true
  closeable_to_tray := false
  use_overlay_titlebar := true
  traffic_lights_inset := some (12, 16)
  window_effect := none
  shadow := true
  additional_args := none
  parent_label := none

/-- `config.rs`: `WindowConfig::tray_popup()` — borderless popup near the tray. -/
def WindowConfig.tray_popup : WindowConfig where
  label := "tray-popup"
  title := "Tray Popup"
  url := "/tray-popup.html"
  width := 260
  height := 310
  min_width := none
  min_height := none
  max_width := none
  max_height := none
  resizable := false
  decorations := false
  transparent := true
  always_on_top := true
  skip_taskbar := true
  center := false
  visible := false
  single_instance := true
  closeable_to_tray := false
  use_overlay_titlebar := false
  traffic_lights_inset := none
  window_effect := some "acrylic"
  shadow := true
  additional_args := some DEFAULT_ADDTIONAL_WINDOW_ARGS
  parent_label := none

/-- `config.rs`: `WindowConfig::from_label` — preset lookup by label string;
`None` for unknown labels. -/
def WindowConfig.from_label (label : String) : Option WindowConfig :=
  if label == "main" then some WindowConfig.main
  else if label == "mini-player" then some WindowConfig.mini_player
  else if label == "desktop-lyrics" then some WindowConfig.desktop_lyrics
  else if label == "settings" then some WindowConfig.settings
  else if label == "about" then some WindowConfig.about
  else if label == "tray-popup" then some WindowConfig.tray_popup
  else none

/-! ## Payload cache (`payload.rs`)

The global `HashMap<String, Value>` behind a mutex is modelled as an
association list with unique keys (set replaces the old entry); the
`serde_json::Value` payload type is an arbitrary type parameter. -/

def PayloadCache (V : Type) : Type := List (String × V)

/-- `payload.rs`: `PayloadCache::set` — store a payload for a window label,
overwriting any existing payload (`HashMap::insert`). -/
def PayloadCache.set {V : Type} (c : PayloadCache V) (label : String) (v : V) :
    PayloadCache V :=
  (label, v) :: c.filter (fun p => !(p.1 == label))

/-- `payload.rs`: `PayloadCache::take` — consume the payload for a label
(`HashMap::remove`): the removed value (if any) together with the cache
after removal. -/
def PayloadCache.take {V : Type} (c : PayloadCache V) (label : String) :
    Option V × PayloadCache V :=
  ((c.find? (fun p => p.1 == label)).map (fun p => p.2),
   c.filter (fun p => !(p.1 == label)))

/-- `payload.rs`: `PayloadCache::peek` — read the payload without consuming it. -/
def PayloadCache.peek {V : Type} (c : PayloadCache V) (label : String) : Option V :=
  (c.find? (fun p => p.1 == label)).map (fun p => p.2)

/-- `payload.rs`: `PayloadCache::clear` — empty the cache. -/
def PayloadCache.clear {V : Type} : PayloadCache V := []

/-! ## Host windowing state

`manager.rs` operates on live `tauri` webview windows addressed by label.
The host is modelled as a registry: an association list from label to a
window record, plus emitted app events and the trace of host calls. -/

/-- Result of `build_window_effects_with_color` (`manager.rs`): the
`WindowEffectsConfig` assembled by `EffectsBuilder` — the effect list, the
optional tint color, the optional effect state and the optional radius. -/
structure EffectsConfig where
  effects : List String
  color : Option (Nat × Nat × Nat × Nat)
  state : Option String
  radius : Option Rat
deriving DecidableEq

/-- One live host window (a `tauri::WebviewWindow`), as observed through the
calls the manager makes: visibility, minimized flag, focus, outer position
(physical), size, click-through flag and the applied effects. -/
structure HostWindow where
  visible : Bool
  minimized : Bool
  focused : Bool
  posX : Int
  posY : Int
  width : Rat
  height : Rat
  ignoreCursor : Bool
  appliedEffects : Option EffectsConfig
deriving DecidableEq

/-- Events emitted with `app.emit` across the window subsystem. -/
inductive AppEvent where
  | mainWindowVisibility (visible : Bool)
  | mainCloseRequested
  | desktopLyricsMoved (x y : Int)
  | desktopLyricsResized (w h : Nat)
  | trayPopupOpened
deriving DecidableEq

/-- Host calls performed against the windowing layer, traced in order. -/
inductive HostCall where
  | build (label : String)
  | show (label : String)
  | hide (label : String)
  | unminimize (label : String)
  | setFocus (label : String)
  | destroy (label : String)
  | setPosition (label : String) (x y : Int)
  | setSize (label : String) (w h : Rat)
  | setIgnoreCursor (label : String) (ignore : Bool)
  | setEffects (label : String) (eff : EffectsConfig)
deriving DecidableEq

/-- The registry of live windows keyed by label (`app.get_webview_window`
resolves against it), plus the emitted events and the host-call trace. -/
structure Sys where
  windows : List (String × HostWindow)
  events : List AppEvent
  calls : List HostCall
deriving DecidableEq

/-- Look up the live window for a label (`app.get_webview_window(label)`). -/
def lookupWin (ws : List (String × HostWindow)) (label : String) :
    Option HostWindow :=
  (ws.find? (fun p => p.1 == label)).map (fun p => p.2)

/-- Replace the window record stored for a label, leaving other labels alone. -/
def updateWin (ws : List (String × HostWindow)) (label : String)
    (f : HostWindow → HostWindow) : List (String × HostWindow) :=
  ws.map (fun p => if p.1 == label then (p.1, f p.2) else p)

/-- Remove the window stored for a label (host window destruction). -/
def removeWin (ws : List (String × HostWindow)) (label : String) :
    List (String × HostWindow) :=
  ws.filter (fun p => !(p.1 == label))

/-- Apply a window update inside a `Sys`. -/
def updateWinS (s : Sys) (label : String) (f : HostWindow → HostWindow) : Sys :=
  { s with windows := updateWin s.windows label f }

/-- Record one host call in the trace. -/
def logCall (s : Sys) (c : HostCall) : Sys :=
  { s with calls := s.calls ++ [c] }

/-- `app.emit(..)`: append an event to the emitted-event list. -/
def emitEvent (s : Sys) (e : AppEvent) : Sys :=
  { s with events := s.events ++ [e] }

/-- Host call `window.show()`. -/
def hostShow (s : Sys) (label : String) : Sys :=
  logCall (updateWinS s label (fun w => { w with visible := true }))
    (HostCall.show label)

/-- Host call `window.hide()`. -/
def hostHide (s : Sys) (label : String) : Sys :=
  logCall (updateWinS s label (fun w => { w with visible := false }))
    (HostCall.hide label)

/-- Host call `window.unminimize()`. -/
def hostUnminimize (s : Sys) (label : String) : Sys :=
  logCall (updateWinS s label (fun w => { w with minimized := false }))
    (HostCall.unminimize label)

/-- Host call `window.set_focus()`. -/
def hostSetFocus (s : Sys) (label : String) : Sys :=
  logCall (updateWinS s label (fun w => { w with focused := true }))
    (HostCall.setFocus label)

/-- Host call `window.destroy()`: the label leaves the registry. -/
def hostDestroy (s : Sys) (label : String) : Sys :=
  logCall { s with windows := removeWin s.windows label } (HostCall.destroy label)

/-- Host call `window.set_position(PhysicalPosition)`. -/
def hostSetPosition (s : Sys) (label : String) (x y : Int) : Sys :=
  logCall (updateWinS s label (fun w => { w with posX := x, posY := y }))
    (HostCall.setPosition label x y)

/-- Host call `window.set_size(LogicalSize)` (registry model scale = 1). -/
def hostSetSize (s : Sys) (label : String) (w h : Rat) : Sys :=
  logCall (updateWinS s label (fun win => { win with width := w, height := h }))
    (HostCall.setSize label w h)

/-- Host call `window.set_ignore_cursor_events(ignore)`. -/
def hostSetIgnoreCursor (s : Sys) (label : String) (ignore : Bool) : Sys :=
  logCall (updateWinS s label (fun w => { w with ignoreCursor := ignore }))
    (HostCall.setIgnoreCursor label ignore)

/-- Host call `window.set_effects(effects)`. -/
def hostSetEffects (s : Sys) (label : String) (eff : EffectsConfig) : Sys :=
  logCall (updateWinS s label (fun w => { w with appliedEffects := some eff }))
    (HostCall.setEffects label eff)

/-- Structured rendering of the `String` errors produced by the window
commands (`format!` messages in the source). -/
inductive WinErr where
  | notFound (label : String)
  | noPreset (label : String)
  | parentNotFound (parent : String) (label : String)
  | hostFailure (step : String)
deriving DecidableEq

/-! ## Window manager operations (`manager.rs`) -/

/-- Outcomes of the fallible host steps inside `create_window`
(`builder.build()` and the post-construction cosmetic calls); `true`
means the host call returns `Ok`. -/
structure HostOutcomes where
  buildOk : Bool
  setEffectsOk : Bool
  overlayTitlebarOk : Bool
  trafficLightsOk : Bool
  makeTransparentOk : Bool
deriving DecidableEq

/-- `manager.rs`: `build_window_effects_with_color` — platform-specific
effects config from a named effect; `None` for unrecognized names. -/
def build_window_effects_with_color (platform : Platform) (effect : String)
    (r g b a : Nat) : Option EffectsConfig :=
  if effect == "acrylic" then
    some (match platform with
      | Platform.windows =>
          { effects := ["Acrylic"], color := some (r, g, b, a),
            state := none, radius := none }
      | Platform.macos =>
          { effects := ["HudWindow"], color := none,
            state := some "Active", radius := some 12 }
      | Platform.linux =>
          { effects := [], color := none, state := none, radius := none })
  else none

/-- `manager.rs`: `build_window_effects` — default tint (30, 30, 30, 200). -/
def build_window_effects (platform : Platform) (effect : String) :
    Option EffectsConfig :=
  build_window_effects_with_color platform effect 30 30 30 200

/-- The window record produced by `builder.build()` for a config: initial
visibility from `config.visible`, size from the config, nothing else set. -/
def builtWindow (config : WindowConfig) : HostWindow :=
  { visible := config.visible, minimized := false, focused := false,
    posX := 0, posY := 0, width := config.width, height := config.height,
    ignoreCursor := false, appliedEffects := none }

/-- `manager.rs`: the tail of `create_window` after the single-instance and
parent checks: `builder.build()`, then the effect application (result
discarded with `let _ =`), then the macOS-only overlay titlebar, traffic
lights inset and transparency steps, whose failures propagate with `?`. -/
def createBuild (platform : Platform) (host : HostOutcomes) (s : Sys)
    (config : WindowConfig) : Sys × Except WinErr Unit :=
  if !host.buildOk then (s, Except.error (WinErr.hostFailure "window build"))
  else
    let label := config.label
    let s1 := logCall { s with windows := s.windows ++ [(label, builtWindow config)] }
      (HostCall.build label)
    let s2 :=
      match config.window_effect with
      | some effect_name =>
          match build_window_effects platform effect_name with
          | some effects =>
              if host.setEffectsOk then hostSetEffects s1 label effects else s1
          | none => s1
      | none => s1
    if platform == Platform.macos && config.use_overlay_titlebar
        && !host.overlayTitlebarOk then
      (s2, Except.error (WinErr.hostFailure "create_overlay_titlebar"))
    else if platform == Platform.macos && config.traffic_lights_inset.isSome
        && !host.trafficLightsOk then
      (s2, Except.error (WinErr.hostFailure "set_traffic_lights_inset"))
    else if platform == Platform.macos && config.transparent
        && !host.makeTransparentOk then
      (s2, Except.error (WinErr.hostFailure "make_transparent"))
    else (s2, Except.ok ())

/-- `manager.rs`: `create_window` — create or focus a window from a
`WindowConfig`.  If `config.single_instance` and a window with the label
already exists, it is shown (un-minimized only if minimized) and focused
instead of creating a duplicate; a named parent that has no live window
fails the call; otherwise the window is built. -/
def create_window (platform : Platform) (host : HostOutcomes) (s : Sys)
    (config : WindowConfig) : Sys × Except WinErr Unit :=
  let label := config.label
  if config.single_instance && (lookupWin s.windows label).isSome then
    let s1 := hostShow s label
    let s2 :=
      if ((lookupWin s1.windows label).map HostWindow.minimized).getD false
      then hostUnminimize s1 label else s1
    (hostSetFocus s2 label, Except.ok ())
  else
    match config.parent_label with
    | some parent =>
        if (lookupWin s.windows parent).isSome then
          createBuild platform host s config
        else
          (s, Except.error (WinErr.parentNotFound parent label))
    | none => createBuild platform host s config

/-- `manager.rs`: `show_window` — show and focus a window by label, emitting
`main-window-visibility(true)` for the "main" label. -/
def show_window (s : Sys) (label : String) : Sys × Except WinErr Unit :=
  match lookupWin s.windows label with
  | none => (s, Except.error (WinErr.notFound label))
  | some _ =>
      let s1 := hostSetFocus (hostShow s label) label
      (if label == "main" then emitEvent s1 (AppEvent.mainWindowVisibility true)
       else s1, Except.ok ())

/-- `manager.rs`: `hide_window` — hide a window by label, emitting
`main-window-visibility(false)` for the "main" label. -/
def hide_window (s : Sys) (label : String) : Sys × Except WinErr Unit :=
  match lookupWin s.windows label with
  | none => (s, Except.error (WinErr.notFound label))
  | some _ =>
      let s1 := hostHide s label
      (if label == "main" then emitEvent s1 (AppEvent.mainWindowVisibility false)
       else s1, Except.ok ())

/-- `manager.rs`: `close_window` — if the label's preset has
`closeable_to_tray`, the window is hidden instead of destroyed; otherwise
the live window is destroyed. -/
def close_window (s : Sys) (label : String) : Sys × Except WinErr Unit :=
  if (WindowConfig.from_label label).any (fun preset => preset.closeable_to_tray)
  then hide_window s label
  else
    match lookupWin s.windows label with
    | none => (s, Except.error (WinErr.notFound label))
    | some _ => (hostDestroy s label, Except.ok ())

/-- `manager.rs`: `toggle_window` — hide if visible (emitting for "main"),
else show, un-minimize only if actually minimized, focus, and emit for
"main". -/
def toggle_window (s : Sys) (label : String) : Sys × Except WinErr Unit :=
  match lookupWin s.windows label with
  | none => (s, Except.error (WinErr.notFound label))
  | some w =>
      if w.visible then
        let s1 := hostHide s label
        (if label == "main" then
           emitEvent s1 (AppEvent.mainWindowVisibility false)
         else s1, Except.ok ())
      else
        let s1 := hostShow s label
        let s2 :=
          if ((lookupWin s1.windows label).map HostWindow.minimized).getD false
          then hostUnminimize s1 label else s1
        let s3 := hostSetFocus s2 label
        (if label == "main" then
           emitEvent s3 (AppEvent.mainWindowVisibility true)
         else s3, Except.ok ())

/-- `manager.rs`: `focus_window` — show, un-minimize only if minimized,
focus, and emit `main-window-visibility(true)` for "main". -/
def focus_window (s : Sys) (label : String) : Sys × Except WinErr Unit :=
  match lookupWin s.windows label with
  | none => (s, Except.error (WinErr.notFound label))
  | some _ =>
      let s1 := hostShow s label
      let s2 :=
        if ((lookupWin s1.windows label).map HostWindow.minimized).getD false
        then hostUnminimize s1 label else s1
      let s3 := hostSetFocus s2 label
      (if label == "main" then
         emitEvent s3 (AppEvent.mainWindowVisibility true)
       else s3, Except.ok ())

/-- `manager.rs`: `window_exists`. -/
def window_exists (s : Sys) (label : String) : Bool :=
  (lookupWin s.windows label).isSome

/-- `manager.rs`: `is_window_visible`. -/
def is_window_visible (s : Sys) (label : String) : Except WinErr Bool :=
  match lookupWin s.windows label with
  | none => Except.error (WinErr.notFound label)
  | some w => Except.ok w.visible

/-- `manager.rs`: `list_windows` — snapshot of the open window labels. -/
def list_windows (s : Sys) : List String :=
  s.windows.map (fun p => p.1)

/-- Rust `as i32` on an f64: truncation toward zero (i32 saturation elided —
coordinates stay far inside the i32 range). -/
def f64AsI32 (q : Rat) : Int :=
  if 0 ≤ q then Int.floor q else Int.ceil q

/-- `manager.rs`: `show_window_at_position` — reposition (physical pixels),
then show, then focus, in that order. -/
def show_window_at_position (s : Sys) (label : String) (x y : Rat) :
    Sys × Except WinErr Unit :=
  match lookupWin s.windows label with
  | none => (s, Except.error (WinErr.notFound label))
  | some _ =>
      let s1 := hostSetPosition s label (f64AsI32 x) (f64AsI32 y)
      let s2 := hostShow s1 label
      (hostSetFocus s2 label, Except.ok ())

/-- `manager.rs`: `set_ignore_cursor_events` (click-through). -/
def set_ignore_cursor_events (s : Sys) (label : String) (ignore : Bool) :
    Sys × Except WinErr Unit :=
  match lookupWin s.windows label with
  | none => (s, Except.error (WinErr.notFound label))
  | some _ => (hostSetIgnoreCursor s label ignore, Except.ok ())

/-- `manager.rs`: `resize_window` — set a logical size. -/
def resize_window (s : Sys) (label : String) (width height : Rat) :
    Sys × Except WinErr Unit :=
  match lookupWin s.windows label with
  | none => (s, Except.error (WinErr.notFound label))
  | some _ => (hostSetSize s label width height, Except.ok ())

/-- `manager.rs`: `set_window_position` — physical coordinates. -/
def set_window_position (s : Sys) (label : String) (x y : Int) :
    Sys × Except WinErr Unit :=
  match lookupWin s.windows label with
  | none => (s, Except.error (WinErr.notFound label))
  | some _ => (hostSetPosition s label x y, Except.ok ())

/-- `manager.rs`: `set_window_effect_color` — re-resolve the label's preset
effect name and reapply the platform effect with a custom tint; no effect
application when the preset has no configured effect. -/
def set_window_effect_color (platform : Platform) (s : Sys) (label : String)
    (r g b a : Nat) : Sys × Except WinErr Unit :=
  match lookupWin s.windows label with
  | none => (s, Except.error (WinErr.notFound label))
  | some _ =>
      let s1 :=
        match WindowConfig.from_label label with
        | some preset =>
            match preset.window_effect with
            | some effect_name =>
                match build_window_effects_with_color platform effect_name r g b a with
                | some effects => hostSetEffects s label effects
                | none => s
            | none => s
        | none => s
      (s1, Except.ok ())

/-! ## Command layer (`commands.rs`, `desktop_lyrics/commands.rs`) -/

/-- `commands.rs`: `WindowState` — the result of `get_window_state`.
(`exists` is a reserved word in Lean, hence the underscore.) -/
structure WindowState where
  exists_ : Bool
  visible : Bool
deriving DecidableEq

/-- `commands.rs`: `create_window` command — create from a preset label;
fails with a no-preset error for unknown labels. -/
def cmd_create_window (platform : Platform) (host : HostOutcomes) (s : Sys)
    (label : String) : Sys × Except WinErr Unit :=
  match WindowConfig.from_label label with
  | none => (s, Except.error (WinErr.noPreset label))
  | some config => create_window platform host s config

/-- `commands.rs`: `create_custom_window` command — create from a fully
custom configuration. -/
def cmd_create_custom_window (platform : Platform) (host : HostOutcomes)
    (s : Sys) (config : WindowConfig) : Sys × Except WinErr Unit :=
  create_window platform host s config

/-- `commands.rs`: `create_window_with_payload` command — store the payload,
then create from the preset label. -/
def cmd_create_window_with_payload {V : Type} (platform : Platform)
    (host : HostOutcomes) (s : Sys) (cache : PayloadCache V) (label : String)
    (payload : V) : (Sys × Except WinErr Unit) × PayloadCache V :=
  let cache1 := cache.set label payload
  match WindowConfig.from_label label with
  | none => ((s, Except.error (WinErr.noPreset label)), cache1)
  | some config => (create_window platform host s config, cache1)

/-- `commands.rs`: `get_window_state` command — `exists` from the registry,
`visible` queried only when the window exists (otherwise `false`). -/
def cmd_get_window_state (s : Sys) (label : String) :
    Except WinErr WindowState :=
  let ex := window_exists s label
  match (if ex then is_window_visible s label else Except.ok false) with
  | Except.error e => Except.error e
  | Except.ok visible => Except.ok { exists_ := ex, visible := visible }

/-- `commands.rs`: `get_window_bounds` command — outer position and size
(physical pixels; registry model scale = 1). -/
def cmd_get_window_bounds (s : Sys) (label : String) :
    Except WinErr (Int × Int × Rat × Rat) :=
  match lookupWin s.windows label with
  | none => Except.error (WinErr.notFound label)
  | some w => Except.ok (w.posX, w.posY, w.width, w.height)

/-- `desktop_lyrics/commands.rs`: `set_window_position` command. -/
def cmd_set_window_position_lyrics (s : Sys) (label : String) (x y : Int) :
    Sys × Except WinErr Unit :=
  match lookupWin s.windows label with
  | none => (s, Except.error (WinErr.notFound label))
  | some _ => (hostSetPosition s label x y, Except.ok ())

/-- `desktop_lyrics/commands.rs`: `handle_desktop_lyrics_event` — re-emit
move/resize events of the desktop-lyrics window, ignore everything else. -/
inductive WindowEvent where
  | moved (x y : Int)
  | resized (w h : Nat)
  | other
deriving DecidableEq

def handle_desktop_lyrics_event (s : Sys) (label : String) (ev : WindowEvent) :
    Sys :=
  if !(label == "desktop-lyrics") then s
  else
    match ev with
    | WindowEvent.moved x y => emitEvent s (AppEvent.desktopLyricsMoved x y)
    | WindowEvent.resized w h => emitEvent s (AppEvent.desktopLyricsResized w h)
    | WindowEvent.other => s

/-! ## Tray popup positioner (`tray.rs`) -/

/-- A `tauri::Position`: physical (i32) or logical (f64) coordinates. -/
inductive TauriPos where
  | physical (x y : Int)
  | logical (x y : Rat)
deriving DecidableEq

/-- A `tauri::Size`: physical (u32) or logical (f64) dimensions. -/
inductive TauriSize where
  | physical (w h : Nat)
  | logical (w h : Rat)
deriving DecidableEq

/-- The tray icon rect delivered with the tray click event. -/
structure TrayRect where
  position : TauriPos
  size : TauriSize
deriving DecidableEq

/-- A monitor's physical position (i32) and size (u32). -/
structure Monitor where
  posX : Int
  posY : Int
  width : Nat
  height : Nat
deriving DecidableEq

/-- `tray.rs`: extraction of the physical icon position from the rect
(logical coordinates are scaled by the popup's scale factor). -/
def resolveTrayPos (scale : Rat) : TauriPos → Rat × Rat
  | TauriPos.physical x y => ((x : Rat), (y : Rat))
  | TauriPos.logical x y => (x * scale, y * scale)

/-- `tray.rs`: extraction of the physical icon size from the rect. -/
def resolveTraySize (scale : Rat) : TauriSize → Rat × Rat
  | TauriSize.physical w h => ((w : Rat), (h : Rat))
  | TauriSize.logical w h => (w * scale, h * scale)

/-- Rust `f64::clamp(lo, hi)` (requires `lo ≤ hi`; both callers pass
`hi = max(.., lo)`). -/
def fclamp (v lo hi : Rat) : Rat :=
  if v < lo then lo else if v > hi then hi else v

/-- `tray.rs`: the monitor-containment test of the clamping step — does the
monitor contain the tray icon's top-left point. -/
def monitorContains (m : Monitor) (iconX iconY : Rat) : Bool :=
  let ml : Rat := m.posX
  let mt : Rat := m.posY
  let mr : Rat := ml + (m.width : Rat)
  let mb : Rat := mt + (m.height : Rat)
  decide (ml ≤ iconX) && decide (iconX < mr)
    && decide (mt ≤ iconY) && decide (iconY < mb)

/-- `tray.rs`: the position computation of `show_tray_popup` (lines 78-133):
convert the icon rect to physical pixels, center the popup horizontally on
the icon, offset vertically below (macOS, top tray) or above (otherwise,
bottom tray), then clamp into the monitor containing the icon's top-left
point; no clamping when no monitor contains it. -/
def trayPopupPosition (isMacos : Bool) (scale : Rat) (rect : TrayRect)
    (cfgWidth cfgHeight : Rat) (monitors : List Monitor) : Rat × Rat :=
  let icon := resolveTrayPos scale rect.position
  let iconSize := resolveTraySize scale rect.size
  let popup_width := cfgWidth * scale
  let popup_height := cfgHeight * scale
  let gap := 8 * scale
  let x := icon.1 + iconSize.1 / 2 - popup_width / 2
  let y := if isMacos then icon.2 + iconSize.2 + gap
           else icon.2 - popup_height - gap
  match monitors.find? (fun m => monitorContains m icon.1 icon.2) with
  | some monitor =>
      let mon_left : Rat := monitor.posX
      let mon_top : Rat := monitor.posY
      let mon_right : Rat := mon_left + (monitor.width : Rat)
      let mon_bottom : Rat := mon_top + (monitor.height : Rat)
      (fclamp x mon_left (max (mon_right - popup_width) mon_left),
       fclamp y mon_top (max (mon_bottom - popup_height) mon_top))
  | none => (x, y)

/-- `tray.rs`: `show_tray_popup` — lazily create the popup if missing, force
the preset size back, compute the position, show at that position, and emit
`tray-popup-opened`.  `scale` is the popup's reported scale factor
(`unwrap_or(1.0)` applied by the caller of this model), `monitors` the
enumeration result. -/
def show_tray_popup (platform : Platform) (host : HostOutcomes) (s : Sys)
    (rect : TrayRect) (scale : Rat) (monitors : List Monitor) :
    Sys × Except WinErr Unit :=
  let config := WindowConfig.tray_popup
  match
    (if (lookupWin s.windows "tray-popup").isNone then
       create_window platform host s config
     else (s, Except.ok ())) with
  | (s1, Except.error e) => (s1, Except.error e)
  | (s1, Except.ok ()) =>
      let s2 :=
        if (lookupWin s1.windows "tray-popup").isSome then
          hostSetSize s1 "tray-popup" config.width config.height
        else s1
      let pos := trayPopupPosition (platform == Platform.macos) scale rect
        config.width config.height monitors
      match show_window_at_position s2 "tray-popup" pos.1 pos.2 with
      | (s3, Except.error e) => (s3, Except.error e)
      | (s3, Except.ok ()) =>
          (emitEvent s3 AppEvent.trayPopupOpened, Except.ok ())

/-! ## Registry lemmas -/

theorem lookupWin_updateWin_self (ws : List (String × HostWindow))
    (label : String) (f : HostWindow → HostWindow) :
    lookupWin (updateWin ws label f) label = (lookupWin ws label).map f := by
  induction ws with
  | nil => rfl
  | cons p t ih =>
      by_cases h : p.1 == label
      · simp [lookupWin, updateWin, List.find?, h]
      · simpa [lookupWin, updateWin, List.find?, h] using ih

theorem lookupWin_removeWin_self (ws : List (String × HostWindow))
    (label : String) :
    lookupWin (removeWin ws label) label = none := by
  induction ws with
  | nil => rfl
  | cons p t ih =>
      by_cases h : p.1 == label
      · simpa [lookupWin, removeWin, List.filter, h] using ih
      · simpa [lookupWin, removeWin, List.filter, List.find?, h] using ih

theorem lookupWin_append_of_none (ws : List (String × HostWindow))
    (label : String) (w : HostWindow)
    (h : lookupWin ws label = none) :
    lookupWin (ws ++ [(label, w)]) label = some w := by
  induction ws with
  | nil => simp [lookupWin, List.find?]
  | cons p t ih =>
      by_cases hp : p.1 == label
      · simp [lookupWin, List.find?, hp] at h
      · simp only [lookupWin, List.find?, List.cons_append] at *
        simp only [hp] at *
        exact ih h

theorem isSome_lookupWin_append (ws : List (String × HostWindow))
    (label : String) (w : HostWindow) :
    (lookupWin (ws ++ [(label, w)]) label).isSome = true := by
  induction ws with
  | nil => simp [lookupWin, List.find?]
  | cons p t ih =>
      by_cases hp : p.1 == label
      · simp [lookupWin, List.find?, hp]
      · simpa [lookupWin, List.find?, hp] using ih

theorem map_fst_updateWin (ws : List (String × HostWindow)) (label : String)
    (f : HostWindow → HostWindow) :
    (updateWin ws label f).map Prod.fst = ws.map Prod.fst := by
  induction ws with
  | nil => rfl
  | cons p t ih =>
      unfold updateWin at ih ⊢
      by_cases h : p.1 == label <;> simp only [List.map_cons, ih] <;> simp [h]

/-- Number of registry entries stored under a label. -/
def keyCount (ws : List (String × HostWindow)) (label : String) : Nat :=
  (ws.filter (fun p => p.1 == label)).length

theorem keyCount_updateWin (ws : List (String × HostWindow)) (label l2 : String)
    (f : HostWindow → HostWindow) :
    keyCount (updateWin ws label f) l2 = keyCount ws l2 := by
  induction ws with
  | nil => rfl
  | cons p t ih =>
      by_cases h : p.1 == label
      · have hl : ((p.1, f p.2).1 == l2) = (p.1 == l2) := rfl
        by_cases h2 : p.1 == l2
        · simpa [keyCount, updateWin, List.filter, h, h2] using ih
        · simpa [keyCount, updateWin, List.filter, h, h2] using ih
      · by_cases h2 : p.1 == l2
        · simpa [keyCount, updateWin, List.filter, h, h2] using ih
        · simpa [keyCount, updateWin, List.filter, h, h2] using ih

theorem keyCount_append_self (ws : List (String × HostWindow)) (label : String)
    (w : HostWindow) :
    keyCount (ws ++ [(label, w)]) label = keyCount ws label + 1 := by
  induction ws with
  | nil => simp [keyCount, List.filter]
  | cons p t ih =>
      by_cases h : p.1 == label
      · simpa [keyCount, List.filter, h] using ih
      · simpa [keyCount, List.filter, h] using ih

theorem keyCount_of_lookup_none (ws : List (String × HostWindow))
    (label : String) (h : lookupWin ws label = none) :
    keyCount ws label = 0 := by
  induction ws with
  | nil => rfl
  | cons p t ih =>
      by_cases hp : p.1 == label
      · simp [lookupWin, List.find?, hp] at h
      · simp only [lookupWin, List.find?, hp] at h
        simpa [keyCount, List.filter, hp] using ih h

theorem windows_ite_emit (c : Prop) [Decidable c] (s : Sys) (e : AppEvent) :
    (if c then emitEvent s e else s).windows = s.windows := by
  split <;> rfl

theorem events_ite_emit (c : Prop) [Decidable c] (s : Sys) (e : AppEvent) :
    (if c then emitEvent s e else s).events
      = s.events ++ (if c then [e] else []) := by
  split <;> simp [emitEvent]

theorem toggle_window_effect (s : Sys) (label : String) (w : HostWindow)
    (hw : lookupWin s.windows label = some w) :
    (toggle_window s label).2 = Except.ok () ∧
    (lookupWin (toggle_window s label).1.windows label).map HostWindow.visible
      = some (!w.visible) ∧
    (toggle_window s label).1.events
      = s.events ++ (if label == "main"
          then [AppEvent.mainWindowVisibility (!w.visible)] else []) := by
  by_cases hl : label = "main"
  · subst hl
    by_cases hv : w.visible <;> by_cases hm : w.minimized <;>
      refine ⟨by simp [toggle_window, hw, hv], ?_, ?_⟩ <;>
      simp [toggle_window, hw, hv, hm, hostHide, hostShow, hostUnminimize,
        hostSetFocus, logCall, updateWinS, emitEvent, lookupWin_updateWin_self]
  · by_cases hv : w.visible <;> by_cases hm : w.minimized <;>
      refine ⟨by simp [toggle_window, hw, hv], ?_, ?_⟩ <;>
      simp [toggle_window, hw, hv, hm, hl, hostHide, hostShow, hostUnminimize,
        hostSetFocus, logCall, updateWinS, emitEvent, lookupWin_updateWin_self]

theorem hide_window_effect (s : Sys) (label : String) (w : HostWindow)
    (hw : lookupWin s.windows label = some w) :
    (hide_window s label).2 = Except.ok () ∧
    lookupWin (hide_window s label).1.windows label
      = some { w with visible := false } ∧
    (hide_window s label).1.events
      = s.events ++ (if label == "main"
          then [AppEvent.mainWindowVisibility false] else []) := by
  by_cases hl : label = "main"
  · subst hl
    simp [hide_window, hw, hostHide, logCall, updateWinS, emitEvent,
      lookupWin_updateWin_self]
  · simp [hide_window, hw, hl, hostHide, logCall, updateWinS, emitEvent,
      lookupWin_updateWin_self]

/-! ## Concrete fixtures used by the witness theorems -/

/-- A plain live window record. -/
def sampleWin : HostWindow :=
  { visible := true, minimized := false, focused := false, posX := 0, posY := 0,
    width := 881, height := 653, ignoreCursor := false, appliedEffects := none }

/-- A registry holding one live "main" window. -/
def sysWithMain : Sys :=
  { windows := [("main", sampleWin)], events := [], calls := [] }

/-- A registry holding one live "about" window. -/
def sysWithAbout : Sys :=
  { windows := [("about", sampleWin)], events := [], calls := [] }

/-- The empty registry. -/
def emptySys : Sys := { windows := [], events := [], calls := [] }

/-! ## C1 -/

/-- C1: `close(L)` first looks up L's preset: when the preset exists and its
`closeable_to_tray` flag is true, `close` behaves exactly as `hide` (the
window still exists and is not visible afterwards); otherwise `close`
destroys the live window (no window exists for L afterwards). -/
theorem close_window_tray_or_destroy (s : Sys) (label : String)
    (w : HostWindow) (hw : lookupWin s.windows label = some w) :
    (∀ preset, WindowConfig.from_label label = some preset →
        preset.closeable_to_tray = true →
        close_window s label = hide_window s label ∧
        (close_window s label).2 = Except.ok () ∧
        window_exists (close_window s label).1 label = true ∧
        is_window_visible (close_window s label).1 label = Except.ok false) ∧
    ((WindowConfig.from_label label).all
        (fun preset => !preset.closeable_to_tray) = true →
        (close_window s label).2 = Except.ok () ∧
        window_exists (close_window s label).1 label = false) := by
  constructor
  · intro preset hp hct
    have heq : close_window s label = hide_window s label := by
      simp [close_window, hp, Option.any, hct]
    obtain ⟨hok, hlook, _⟩ := hide_window_effect s label w hw
    rw [heq]
    exact ⟨rfl, hok, by simp [window_exists, hlook],
      by simp [is_window_visible, hlook]⟩
  · intro hall
    have hdest :
        close_window s label = (hostDestroy s label, Except.ok ()) := by
      cases hp : WindowConfig.from_label label with
      | none => simp [close_window, hp, Option.any, hw]
      | some preset =>
          have hct : preset.closeable_to_tray = false := by
            simpa [hp, Option.all] using hall
          simp [close_window, hp, Option.any, hct, hw]
    rw [hdest]
    simp [window_exists, hostDestroy, logCall, lookupWin_removeWin_self]

theorem close_window_tray_or_destroy_witness :
    lookupWin sysWithMain.windows "main" = some sampleWin ∧
    ((∀ preset, WindowConfig.from_label "main" = some preset →
        preset.closeable_to_tray = true →
        close_window sysWithMain "main" = hide_window sysWithMain "main" ∧
        (close_window sysWithMain "main").2 = Except.ok () ∧
        window_exists (close_window sysWithMain "main").1 "main" = true ∧
        is_window_visible (close_window sysWithMain "main").1 "main"
          = Except.ok false) ∧
     ((WindowConfig.from_label "main").all
        (fun preset => !preset.closeable_to_tray) = true →
        (close_window sysWithMain "main").2 = Except.ok () ∧
        window_exists (close_window sysWithMain "main").1 "main" = false)) :=
  ⟨rfl, close_window_tray_or_destroy sysWithMain "main" sampleWin rfl⟩

/-! ## C3 -/

theorem find_filter_none {V : Type} (c : List (String × V)) (label : String) :
    ((c.filter (fun p => !(p.1 == label))).find? (fun p => p.1 == label))
      = none := by
  induction c with
  | nil => rfl
  | cons p t ih =>
      by_cases h : p.1 == label <;> simp [List.filter, List.find?, h, ih]

/-- C3: `take(L)` immediately after `set(L, v)` returns `v`; a second
`take(L)` with no intervening set returns nothing; and `take(L)` with no
prior `set(L, _)` returns nothing rather than failing. -/
theorem payload_take_at_most_once {V : Type} (c : PayloadCache V)
    (label : String) (v : V) :
    ((c.set label v).take label).1 = some v ∧
    ((((c.set label v).take label).2).take label).1 = none ∧
    (c.peek label = none → (c.take label).1 = none) := by
  refine ⟨?_, ?_, ?_⟩
  · simp [PayloadCache.set, PayloadCache.take, List.find?]
  · simp only [PayloadCache.set, PayloadCache.take]
    simp [List.filter, find_filter_none]
  · intro hp
    simp only [PayloadCache.peek, Option.map_eq_none'] at hp
    simp [PayloadCache.take, hp]

/-- An empty payload cache over Nat payloads, for the witness. -/
def emptyNatCache : PayloadCache Nat := []

theorem payload_take_at_most_once_witness :
    (PayloadCache.take (PayloadCache.set emptyNatCache "settings" 7)
        "settings").1 = some 7 ∧
    (PayloadCache.take (PayloadCache.take
        (PayloadCache.set emptyNatCache "settings" 7) "settings").2
        "settings").1 = none ∧
    (PayloadCache.peek emptyNatCache "settings" = none →
       (PayloadCache.take emptyNatCache "settings").1 = none) :=
  payload_take_at_most_once emptyNatCache "settings" 7

/-! ## C7 -/

/-- C7: for every label with a live window, toggle is its own inverse with
respect to visibility: two consecutive toggles (both succeeding) restore the
original visibility state. -/
theorem toggle_toggle_restores_visibility (s : Sys) (label : String)
    (w : HostWindow) (hw : lookupWin s.windows label = some w) :
    (toggle_window s label).2 = Except.ok () ∧
    (toggle_window (toggle_window s label).1 label).2 = Except.ok () ∧
    (lookupWin (toggle_window (toggle_window s label).1 label).1.windows
        label).map HostWindow.visible = some w.visible := by
  obtain ⟨h1, h2, _⟩ := toggle_window_effect s label w hw
  rcases Option.map_eq_some'.mp h2 with ⟨w2, hw2, hv2⟩
  obtain ⟨h1', h2', _⟩ := toggle_window_effect (toggle_window s label).1 label w2 hw2
  refine ⟨h1, h1', ?_⟩
  rw [h2', hv2, Bool.not_not]

theorem toggle_toggle_restores_visibility_witness :
    lookupWin sysWithMain.windows "main" = some sampleWin ∧
    ((toggle_window sysWithMain "main").2 = Except.ok () ∧
     (toggle_window (toggle_window sysWithMain "main").1 "main").2
       = Except.ok () ∧
     (lookupWin (toggle_window (toggle_window sysWithMain "main").1 "main").1.windows
        "main").map HostWindow.visible = some sampleWin.visible) :=
  ⟨rfl, toggle_toggle_restores_visibility sysWithMain "main" sampleWin rfl⟩

/-! ## C8 -/

/-- C8: every successful `toggle("main")` emits `main-window-visibility`
exactly once, carrying the new visibility as payload (false when hiding,
true when showing); a toggle of any other label emits no event. -/
theorem toggle_main_emits_visibility_once (s : Sys) (label : String)
    (w : HostWindow) (hw : lookupWin s.windows label = some w) :
    (toggle_window s label).2 = Except.ok () ∧
    (toggle_window s label).1.events
      = s.events ++ (if label == "main"
          then [AppEvent.mainWindowVisibility (!w.visible)] else []) ∧
    (lookupWin (toggle_window s label).1.windows label).map HostWindow.visible
      = some (!w.visible) := by
  obtain ⟨h1, h2, h3⟩ := toggle_window_effect s label w hw
  exact ⟨h1, h3, h2⟩

theorem toggle_main_emits_visibility_once_witness :
    lookupWin sysWithMain.windows "main" = some sampleWin ∧
    ((toggle_window sysWithMain "main").2 = Except.ok () ∧
     (toggle_window sysWithMain "main").1.events
       = sysWithMain.events ++ (if "main" == "main"
           then [AppEvent.mainWindowVisibility (!sampleWin.visible)] else []) ∧
     (lookupWin (toggle_window sysWithMain "main").1.windows "main").map
        HostWindow.visible = some (!sampleWin.visible)) :=
  ⟨rfl, toggle_main_emits_visibility_once sysWithMain "main" sampleWin rfl⟩

/-! ## C10 -/

/-- C10: for every label with no live window, `get_state` succeeds and
reports `exists = false` and `visible = false` (the visibility query is only
consulted when the window exists). -/
theorem get_window_state_no_window (s : Sys) (label : String)
    (h : window_exists s label = false) :
    cmd_get_window_state s label
      = Except.ok { exists_ := false, visible := false } := by
  simp [cmd_get_window_state, h]

theorem get_window_state_no_window_witness :
    window_exists emptySys "settings" = false ∧
    cmd_get_window_state emptySys "settings"
      = Except.ok { exists_ := false, visible := false } :=
  ⟨rfl, get_window_state_no_window emptySys "settings" rfl⟩

/-! ## C5 -/

/-- C5: for every label with no live window, every label-addressed
query/mutator except create, get_state and exists — show, hide, toggle,
focus, is_visible, show_at, set_ignore_cursor_events, resize, set_position,
set_effect_color, get_bounds and close — fails with the distinct
"window not found" error and leaves the state unchanged. -/
theorem label_ops_not_found (s : Sys) (label : String) (x y : Rat)
    (px py : Int) (wd ht : Rat) (ignore : Bool) (platform : Platform)
    (r g b a : Nat) (h : window_exists s label = false) :
    show_window s label = (s, Except.error (WinErr.notFound label)) ∧
    hide_window s label = (s, Except.error (WinErr.notFound label)) ∧
    toggle_window s label = (s, Except.error (WinErr.notFound label)) ∧
    focus_window s label = (s, Except.error (WinErr.notFound label)) ∧
    is_window_visible s label = Except.error (WinErr.notFound label) ∧
    show_window_at_position s label x y
      = (s, Except.error (WinErr.notFound label)) ∧
    set_ignore_cursor_events s label ignore
      = (s, Except.error (WinErr.notFound label)) ∧
    resize_window s label wd ht = (s, Except.error (WinErr.notFound label)) ∧
    set_window_position s label px py
      = (s, Except.error (WinErr.notFound label)) ∧
    set_window_effect_color platform s label r g b a
      = (s, Except.error (WinErr.notFound label)) ∧
    cmd_get_window_bounds s label = Except.error (WinErr.notFound label) ∧
    close_window s label = (s, Except.error (WinErr.notFound label)) := by
  cases hn : lookupWin s.windows label with
  | some w => simp [window_exists, hn] at h
  | none =>
      simp [show_window, hide_window, toggle_window, focus_window,
        is_window_visible, show_window_at_position, set_ignore_cursor_events,
        resize_window, set_window_position, set_window_effect_color,
        cmd_get_window_bounds, close_window, hn]

theorem label_ops_not_found_witness :
    window_exists emptySys "about" = false ∧
    (show_window emptySys "about"
      = (emptySys, Except.error (WinErr.notFound "about")) ∧
     hide_window emptySys "about"
      = (emptySys, Except.error (WinErr.notFound "about")) ∧
     toggle_window emptySys "about"
      = (emptySys, Except.error (WinErr.notFound "about")) ∧
     focus_window emptySys "about"
      = (emptySys, Except.error (WinErr.notFound "about")) ∧
     is_window_visible emptySys "about"
      = Except.error (WinErr.notFound "about") ∧
     show_window_at_position emptySys "about" 10 20
      = (emptySys, Except.error (WinErr.notFound "about")) ∧
     set_ignore_cursor_events emptySys "about" true
      = (emptySys, Except.error (WinErr.notFound "about")) ∧
     resize_window emptySys "about" 400 350
      = (emptySys, Except.error (WinErr.notFound "about")) ∧
     set_window_position emptySys "about" 3 4
      = (emptySys, Except.error (WinErr.notFound "about")) ∧
     set_window_effect_color Platform.windows emptySys "about" 1 2 3 4
      = (emptySys, Except.error (WinErr.notFound "about")) ∧
     cmd_get_window_bounds emptySys "about"
      = Except.error (WinErr.notFound "about") ∧
     close_window emptySys "about"
      = (emptySys, Except.error (WinErr.notFound "about"))) :=
  ⟨rfl, label_ops_not_found emptySys "about" 10 20 3 4 400 350 true
    Platform.windows 1 2 3 4 rfl⟩

/-! ## Lemmas about window creation -/

theorem create_window_not_existing (platform : Platform) (host : HostOutcomes)
    (s : Sys) (config : WindowConfig)
    (hnex : lookupWin s.windows config.label = none)
    (hparent : ∀ p, config.parent_label = some p →
        (lookupWin s.windows p).isSome = true) :
    create_window platform host s config = createBuild platform host s config := by
  unfold create_window
  cases hp : config.parent_label with
  | none => simp [hnex]
  | some p => simp [hnex, hparent p hp]

theorem createBuild_keyCount (platform : Platform) (host : HostOutcomes)
    (s : Sys) (config : WindowConfig) (hbuild : host.buildOk = true) :
    keyCount (createBuild platform host s config).1.windows config.label
      = keyCount s.windows config.label + 1 := by
  unfold createBuild
  simp only [hbuild, Bool.not_true, Bool.false_eq_true, if_false]
  repeat' split
  all_goals
    simp [hostSetEffects, logCall, updateWinS, keyCount_updateWin,
      keyCount_append_self]

theorem createBuild_lookup_isSome (platform : Platform) (host : HostOutcomes)
    (s : Sys) (config : WindowConfig) (hbuild : host.buildOk = true) :
    (lookupWin (createBuild platform host s config).1.windows
        config.label).isSome = true := by
  unfold createBuild
  simp only [hbuild, Bool.not_true, Bool.false_eq_true, if_false]
  repeat' split
  all_goals
    simp [hostSetEffects, logCall, updateWinS, lookupWin_updateWin_self,
      isSome_lookupWin_append]

theorem createBuild_ok (platform : Platform) (host : HostOutcomes) (s : Sys)
    (config : WindowConfig) (hbuild : host.buildOk = true)
    (ho : host.overlayTitlebarOk = true) (ht : host.trafficLightsOk = true)
    (hm : host.makeTransparentOk = true) :
    (createBuild platform host s config).2 = Except.ok () := by
  unfold createBuild
  simp [hbuild, ho, ht, hm]

theorem create_window_focus_keyCount (platform : Platform)
    (host : HostOutcomes) (s : Sys) (config : WindowConfig) (l2 : String)
    (hsome : (config.single_instance
        && (lookupWin s.windows config.label).isSome) = true) :
    keyCount (create_window platform host s config).1.windows l2
      = keyCount s.windows l2 := by
  unfold create_window
  simp only [hsome, if_true]
  split <;>
    simp [hostShow, hostUnminimize, hostSetFocus, logCall, updateWinS,
      keyCount_updateWin]

/-- A host outcome oracle where every fallible host step succeeds. -/
def allOkHost : HostOutcomes :=
  { buildOk := true, setEffectsOk := true, overlayTitlebarOk := true,
    trafficLightsOk := true, makeTransparentOk := true }

/-! ## C2 -/

/-- C2: with `single_instance = true` and an existing window for the label,
`create` creates no new window: it shows the existing window, un-minimizes
it only if it is minimized, focuses it and returns success; hence two
consecutive creates for the same single-instance label leave exactly one
live window for that label. -/
theorem create_single_instance_idempotent (platform : Platform)
    (host : HostOutcomes) (s : Sys) (config : WindowConfig)
    (hsi : config.single_instance = true) :
    (∀ w, lookupWin s.windows config.label = some w →
       (create_window platform host s config).2 = Except.ok () ∧
       (create_window platform host s config).1.windows.map Prod.fst
         = s.windows.map Prod.fst ∧
       (lookupWin (create_window platform host s config).1.windows
           config.label).map HostWindow.visible = some true ∧
       (lookupWin (create_window platform host s config).1.windows
           config.label).map HostWindow.focused = some true ∧
       (create_window platform host s config).1.calls
         = s.calls ++ [HostCall.show config.label]
             ++ (if w.minimized then [HostCall.unminimize config.label] else [])
             ++ [HostCall.setFocus config.label]) ∧
    (lookupWin s.windows config.label = none →
     host.buildOk = true →
     (∀ p, config.parent_label = some p →
        (lookupWin s.windows p).isSome = true) →
     keyCount (create_window platform host
         (create_window platform host s config).1 config).1.windows
         config.label = 1) := by
  constructor
  · intro w hw
    have hcond : (config.single_instance
        && (lookupWin s.windows config.label).isSome) = true := by
      simp [hsi, hw]
    by_cases hm : w.minimized <;>
      refine ⟨?_, ?_, ?_, ?_, ?_⟩ <;>
      simp [create_window, hcond, hsi, hw, hm, hostShow, hostUnminimize,
        hostSetFocus, logCall, updateWinS, lookupWin_updateWin_self,
        map_fst_updateWin]
  · intro hnex hbuild hparent
    rw [create_window_not_existing platform host s config hnex hparent]
    have h2 : (config.single_instance
        && (lookupWin (createBuild platform host s config).1.windows
            config.label).isSome) = true := by
      simp [hsi, createBuild_lookup_isSome platform host s config hbuild]
    rw [create_window_focus_keyCount platform host
      (createBuild platform host s config).1 config config.label h2,
      createBuild_keyCount platform host s config hbuild,
      keyCount_of_lookup_none s.windows config.label hnex]

theorem create_single_instance_idempotent_witness :
    WindowConfig.about.single_instance = true ∧
    ((∀ w, lookupWin sysWithAbout.windows WindowConfig.about.label = some w →
       (create_window Platform.windows allOkHost sysWithAbout
           WindowConfig.about).2 = Except.ok () ∧
       (create_window Platform.windows allOkHost sysWithAbout
           WindowConfig.about).1.windows.map Prod.fst
         = sysWithAbout.windows.map Prod.fst ∧
       (lookupWin (create_window Platform.windows allOkHost sysWithAbout
           WindowConfig.about).1.windows WindowConfig.about.label).map
           HostWindow.visible = some true ∧
       (lookupWin (create_window Platform.windows allOkHost sysWithAbout
           WindowConfig.about).1.windows WindowConfig.about.label).map
           HostWindow.focused = some true ∧
       (create_window Platform.windows allOkHost sysWithAbout
           WindowConfig.about).1.calls
         = sysWithAbout.calls ++ [HostCall.show WindowConfig.about.label]
             ++ (if w.minimized
                 then [HostCall.unminimize WindowConfig.about.label] else [])
             ++ [HostCall.setFocus WindowConfig.about.label]) ∧
     (lookupWin sysWithAbout.windows WindowConfig.about.label = none →
      allOkHost.buildOk = true →
      (∀ p, WindowConfig.about.parent_label = some p →
         (lookupWin sysWithAbout.windows p).isSome = true) →
      keyCount (create_window Platform.windows allOkHost
          (create_window Platform.windows allOkHost sysWithAbout
            WindowConfig.about).1 WindowConfig.about).1.windows
          WindowConfig.about.label = 1)) :=
  ⟨rfl, create_single_instance_idempotent Platform.windows allOkHost
    sysWithAbout WindowConfig.about rfl⟩

theorem create_window_to_build (platform : Platform) (host : HostOutcomes)
    (s : Sys) (config : WindowConfig)
    (hcond : (config.single_instance
        && (lookupWin s.windows config.label).isSome) = false)
    (hparent : ∀ p, config.parent_label = some p →
        (lookupWin s.windows p).isSome = true) :
    create_window platform host s config
      = createBuild platform host s config := by
  unfold create_window
  cases hp : config.parent_label with
  | none => simp [hcond]
  | some p => simp [hcond, hparent p hp]

/-! ## C6 -/

/-- A host oracle where only the macOS overlay-titlebar call fails. -/
def overlayFailHost : HostOutcomes :=
  { buildOk := true, setEffectsOk := true, overlayTitlebarOk := false,
    trafficLightsOk := true, makeTransparentOk := true }

/-- A host oracle where only the `set_effects` call fails. -/
def effectFailHost : HostOutcomes :=
  { buildOk := true, setEffectsOk := false, overlayTitlebarOk := true,
    trafficLightsOk := true, makeTransparentOk := true }

/-- C6, counterexample: on macOS, creating the main preset with a failing
overlay-titlebar call returns failure even though the underlying window
construction succeeded and the window exists afterwards — the
overlay-titlebar step is not swallowed (its error propagates with `?`). -/
theorem create_cosmetic_failure_cex :
    (create_window Platform.macos overlayFailHost emptySys
        WindowConfig.main).2
      = Except.error (WinErr.hostFailure "create_overlay_titlebar") ∧
    window_exists (create_window Platform.macos overlayFailHost emptySys
        WindowConfig.main).1 "main" = true := by
  constructor <;> rfl

/-- C6 (amended): once `builder.build()` has succeeded, a failure of the
platform visual-effect application (`set_effects`) never fails the call —
its result is discarded — and on any platform the call returns success with
the window existing provided the macOS-only overlay-titlebar,
traffic-lights-inset and transparency steps succeed; those three macOS
steps, unlike the effect application, do propagate failures. -/
theorem create_swallows_effect_failure (platform : Platform)
    (host : HostOutcomes) (s : Sys) (config : WindowConfig)
    (hbuild : host.buildOk = true)
    (ho : host.overlayTitlebarOk = true)
    (ht : host.trafficLightsOk = true)
    (hm : host.makeTransparentOk = true)
    (hparent : ∀ p, config.parent_label = some p →
        (lookupWin s.windows p).isSome = true) :
    (create_window platform host s config).2 = Except.ok () ∧
    window_exists (create_window platform host s config).1 config.label
      = true := by
  by_cases hcond : (config.single_instance
      && (lookupWin s.windows config.label).isSome) = true
  · have hex : (lookupWin s.windows config.label).isSome = true :=
      (Bool.and_eq_true _ _ |>.mp hcond).2
    rcases Option.isSome_iff_exists.mp hex with ⟨w, hlook⟩
    unfold create_window
    rw [if_pos hcond]
    refine ⟨rfl, ?_⟩
    simp only [window_exists]
    split <;>
      simp [hostShow, hostUnminimize, hostSetFocus, logCall, updateWinS,
        lookupWin_updateWin_self, hlook]
  · have hcondf : (config.single_instance
        && (lookupWin s.windows config.label).isSome) = false :=
      Bool.not_eq_true _ |>.mp hcond
    rw [create_window_to_build platform host s config hcondf hparent]
    exact ⟨createBuild_ok platform host s config hbuild ho ht hm,
      createBuild_lookup_isSome platform host s config hbuild⟩

theorem create_swallows_effect_failure_witness :
    effectFailHost.buildOk = true ∧
    effectFailHost.overlayTitlebarOk = true ∧
    effectFailHost.trafficLightsOk = true ∧
    effectFailHost.makeTransparentOk = true ∧
    (∀ p, WindowConfig.mini_player.parent_label = some p →
       (lookupWin emptySys.windows p).isSome = true) ∧
    ((create_window Platform.windows effectFailHost emptySys
        WindowConfig.mini_player).2 = Except.ok () ∧
     window_exists (create_window Platform.windows effectFailHost emptySys
        WindowConfig.mini_player).1 WindowConfig.mini_player.label = true) :=
 by
  refine ⟨rfl, rfl, rfl, rfl, ?_, ?_⟩
  · intro p h
    simp [WindowConfig.mini_player] at h
  · exact create_swallows_effect_failure Platform.windows effectFailHost
      emptySys WindowConfig.mini_player rfl rfl rfl rfl
      (by intro p h; simp [WindowConfig.mini_player] at h)

/-! ## C9 -/

/-- C9: the close decision consults only the static preset catalog: for a
label with no catalog preset, close always destroys the live window, even
when the window was created via `create_custom_window` with a config whose
`closeable_to_tray` is true. -/
theorem close_destroys_custom_tray_closeable (platform : Platform)
    (host : HostOutcomes) (s : Sys) (config : WindowConfig)
    (hnop : WindowConfig.from_label config.label = none)
    (hct : config.closeable_to_tray = true)
    (hbuild : host.buildOk = true)
    (hnex : lookupWin s.windows config.label = none)
    (hparent : ∀ p, config.parent_label = some p →
        (lookupWin s.windows p).isSome = true) :
    window_exists (cmd_create_custom_window platform host s config).1
        config.label = true ∧
    (close_window (cmd_create_custom_window platform host s config).1
        config.label).2 = Except.ok () ∧
    window_exists (close_window (cmd_create_custom_window platform host s
        config).1 config.label).1 config.label = false := by
  have hc : cmd_create_custom_window platform host s config
      = createBuild platform host s config := by
    unfold cmd_create_custom_window
    exact create_window_not_existing platform host s config hnex hparent
  rw [hc]
  have hex := createBuild_lookup_isSome platform host s config hbuild
  rcases Option.isSome_iff_exists.mp hex with ⟨w, hlook⟩
  refine ⟨hex, ?_, ?_⟩ <;>
    simp [close_window, hnop, Option.any, hlook, hostDestroy, logCall,
      window_exists, lookupWin_removeWin_self]

/-- A custom (non-preset) config that asks for close-to-tray behavior. -/
def customPopupConfig : WindowConfig :=
  { WindowConfig.about with label := "my-popup", closeable_to_tray := true }

theorem close_destroys_custom_tray_closeable_witness :
    WindowConfig.from_label customPopupConfig.label = none ∧
    customPopupConfig.closeable_to_tray = true ∧
    allOkHost.buildOk = true ∧
    lookupWin emptySys.windows customPopupConfig.label = none ∧
    (∀ p, customPopupConfig.parent_label = some p →
       (lookupWin emptySys.windows p).isSome = true) ∧
    (window_exists (cmd_create_custom_window Platform.windows allOkHost
        emptySys customPopupConfig).1 customPopupConfig.label = true ∧
     (close_window (cmd_create_custom_window Platform.windows allOkHost
        emptySys customPopupConfig).1 customPopupConfig.label).2
       = Except.ok () ∧
     window_exists (close_window (cmd_create_custom_window Platform.windows
        allOkHost emptySys customPopupConfig).1 customPopupConfig.label).1
        customPopupConfig.label = false) :=
 by
  refine ⟨rfl, rfl, rfl, rfl, ?_, ?_⟩
  · intro p h
    simp [customPopupConfig, WindowConfig.about] at h
  · exact close_destroys_custom_tray_closeable Platform.windows allOkHost
      emptySys customPopupConfig rfl rfl rfl rfl
      (by intro p h; simp [customPopupConfig, WindowConfig.about] at h)

/-! ## C4 -/

theorem fclamp_bounds (v lo hi : Rat) (hle : lo ≤ hi) :
    lo ≤ fclamp v lo hi ∧ fclamp v lo hi ≤ hi := by
  unfold fclamp
  split_ifs <;> constructor <;> linarith

/-- C4: if the tray anchor's top-left point lies inside the monitor the
clamping step selects, and the popup's physical size is strictly smaller
than that monitor's, then the computed popup rectangle lies entirely within
the monitor's bounds — for both the popup-below (macOS) and popup-above
conventions. -/
theorem tray_popup_position_within_monitor (isMacos : Bool) (scale : Rat)
    (rect : TrayRect) (cfgW cfgH : Rat) (monitors : List Monitor)
    (m : Monitor)
    (hfind : monitors.find? (fun mo =>
        monitorContains mo (resolveTrayPos scale rect.position).1
          (resolveTrayPos scale rect.position).2) = some m)
    (hwidth : cfgW * scale < (m.width : Rat))
    (hheight : cfgH * scale < (m.height : Rat)) :
    (m.posX : Rat) ≤ (trayPopupPosition isMacos scale rect cfgW cfgH monitors).1 ∧
    (trayPopupPosition isMacos scale rect cfgW cfgH monitors).1 + cfgW * scale
      ≤ (m.posX : Rat) + (m.width : Rat) ∧
    (m.posY : Rat) ≤ (trayPopupPosition isMacos scale rect cfgW cfgH monitors).2 ∧
    (trayPopupPosition isMacos scale rect cfgW cfgH monitors).2 + cfgH * scale
      ≤ (m.posY : Rat) + (m.height : Rat) := by
  have hxle : (m.posX : Rat) ≤ (m.posX : Rat) + (m.width : Rat) - cfgW * scale := by
    linarith
  have hyle : (m.posY : Rat) ≤ (m.posY : Rat) + (m.height : Rat) - cfgH * scale := by
    linarith
  simp only [trayPopupPosition, hfind]
  rw [max_eq_left hxle, max_eq_left hyle]
  obtain ⟨hx1, hx2⟩ := fclamp_bounds
    ((resolveTrayPos scale rect.position).1
      + (resolveTraySize scale rect.size).1 / 2 - cfgW * scale / 2)
    (m.posX : Rat) ((m.posX : Rat) + (m.width : Rat) - cfgW * scale) hxle
  obtain ⟨hy1, hy2⟩ := fclamp_bounds
    (if isMacos then (resolveTrayPos scale rect.position).2
        + (resolveTraySize scale rect.size).2 + 8 * scale
     else (resolveTrayPos scale rect.position).2 - cfgH * scale - 8 * scale)
    (m.posY : Rat) ((m.posY : Rat) + (m.height : Rat) - cfgH * scale) hyle
  exact ⟨hx1, by linarith, hy1, by linarith⟩

/-- The anchor rect used in the C4 witness: the tray icon at physical
(500, 10), 24 by 24. -/
def sampleTrayRect : TrayRect :=
  { position := TauriPos.physical 500 10, size := TauriSize.physical 24 24 }

/-- The monitor used in the C4 witness. -/
def sampleMonitor : Monitor :=
  { posX := 0, posY := 0, width := 1920, height := 1080 }

theorem tray_popup_position_within_monitor_witness :
    [sampleMonitor].find? (fun mo =>
        monitorContains mo (resolveTrayPos 1 sampleTrayRect.position).1
          (resolveTrayPos 1 sampleTrayRect.position).2) = some sampleMonitor ∧
    (260 : Rat) * 1 < (sampleMonitor.width : Rat) ∧
    (310 : Rat) * 1 < (sampleMonitor.height : Rat) ∧
    ((sampleMonitor.posX : Rat)
        ≤ (trayPopupPosition true 1 sampleTrayRect 260 310 [sampleMonitor]).1 ∧
     (trayPopupPosition true 1 sampleTrayRect 260 310 [sampleMonitor]).1
        + (260 : Rat) * 1
       ≤ (sampleMonitor.posX : Rat) + (sampleMonitor.width : Rat) ∧
     (sampleMonitor.posY : Rat)
        ≤ (trayPopupPosition true 1 sampleTrayRect 260 310 [sampleMonitor]).2 ∧
     (trayPopupPosition true 1 sampleTrayRect 260 310 [sampleMonitor]).2
        + (310 : Rat) * 1
       ≤ (sampleMonitor.posY : Rat) + (sampleMonitor.height : Rat)) := by
  have hfind : [sampleMonitor].find? (fun mo =>
      monitorContains mo (resolveTrayPos 1 sampleTrayRect.position).1
        (resolveTrayPos 1 sampleTrayRect.position).2) = some sampleMonitor := by
    norm_num [List.find?, monitorContains, resolveTrayPos, sampleMonitor,
      sampleTrayRect]
  have hwidth : (260 : Rat) * 1 < (sampleMonitor.width : Rat) := by
    norm_num [sampleMonitor]
  have hheight : (310 : Rat) * 1 < (sampleMonitor.height : Rat) := by
    norm_num [sampleMonitor]
  exact ⟨hfind, hwidth, hheight,
    tray_popup_position_within_monitor true 1 sampleTrayRect 260 310
      [sampleMonitor] sampleMonitor hfind hwidth hheight⟩
